import Mathlib

/-!
Shallow embedding of the `apigateway` request-validation and authentication
layer: the framework adapters (`src/apigateway/core/adapters/*.py`), the
auth decorators (`auth.py`) and the token issuance helper (`auth_utils.py`),
together with theorems settling the specification claims about them.

Python dictionaries are modelled as insertion-ordered association lists
with unique keys maintained by `dictSet`; JSON values as the inductive
`Jv`; exceptions as `Except` / explicit error constructors.
-/

/-- JSON values, as produced by `json.loads` and carried in request data. -/
inductive Jv where
  | null
  | bool (b : Bool)
  | num (n : Int)
  | str (s : String)
  | arr (xs : List Jv)
  | obj (fields : List (String × Jv))

/-- A Python dict with string keys, as an insertion-ordered association list. -/
abbrev JObj := List (String × Jv)

/-- Assignment `d[k] = v` on a Python dict: replaces the value in place if the key is
present, otherwise appends the new binding. -/
def dictSet (d : JObj) (k : String) (v : Jv) : JObj :=
  if d.any (fun p => p.1 = k) then
    d.map (fun p => if p.1 = k then (k, v) else p)
  else
    d ++ [(k, v)]

/-- Update `d.update(entries)` on a Python dict: sets each entry in order. -/
def dictUpdate (d : JObj) (entries : JObj) : JObj :=
  entries.foldl (fun acc p => dictSet acc p.1 p.2) d

/-- Lookup `d.get(k)` / `d[k]` on a Python dict. -/
def dictGet (d : JObj) (k : String) : Option Jv :=
  match d with
  | [] => none
  | (k1, v) :: rest => if k = k1 then some v else dictGet rest k

/-- Flattening `values[0] if len(values) == 1 else values`: the multi-value flattening
rule shared by the Flask and Django adapters. -/
def flattenValues (values : List Jv) : Jv :=
  match values with
  | [v] => v
  | vs => Jv.arr vs

/-- Modelled from the spec (the module
`apigateway/exceptions/GatewayValidationError.py` is not among the provided
sources; §3 of the spec describes it as carrying a human-readable `message`
and a `details` sequence, matching every constructor call in the adapters). -/
structure GatewayValidationError where
  message : String
  details : List Jv

/-- Parse outcome of a request body that was declared as JSON: either the
bytes do not parse (`malformed`) or they parse to a JSON object. -/
inductive JsonBody where
  | malformed
  | parsed (obj : JObj)

/-- The parts of a Flask `request` read by `FlaskAdapter.extract_request_data`:
multi-valued query args and form fields, the `is_json` flag and, when
`is_json` holds, the body parse outcome. -/
structure FlaskRequest where
  args : List (String × List Jv)
  form : List (String × List Jv)
  is_json : Bool
  json_body : JsonBody

/-- Embedding of `FlaskAdapter.extract_request_data`: query parameters first (lowest
priority), then form data overwrites, then the JSON body overwrites; a
declared JSON body that fails to parse raises
`GatewayValidationError("Invalid JSON format in request body", [])`. -/
def FlaskAdapter.extract_request_data (req : FlaskRequest) :
    Except GatewayValidationError JObj :=
  let d : JObj := req.args.foldl
    (fun d p => dictSet d p.1 (flattenValues p.2)) []
  let d : JObj := req.form.foldl
    (fun d p => dictSet d p.1 (flattenValues p.2)) d
  if req.is_json then
    match req.json_body with
    | JsonBody.malformed =>
        Except.error ⟨"Invalid JSON format in request body", []⟩
    | JsonBody.parsed obj =>
        Except.ok (if obj.isEmpty then d else dictUpdate d obj)
  else
    Except.ok d

/-- Does the character list `s` begin with `pat`? -/
def charsBeginWith : List Char → List Char → Bool
  | [], _ => true
  | _ :: _, [] => false
  | a :: as, b :: bs => a = b && charsBeginWith as bs

/-- Does the character list `hay` contain `needle` as a contiguous run? -/
def charsContain (needle : List Char) : List Char → Bool
  | [] => needle.isEmpty
  | c :: rest => charsBeginWith needle (c :: rest) || charsContain needle rest

/-- Substring containment, modelling Python's `needle in haystack` on
strings (for the Django adapter's content-type check). -/
def strContains (haystack needle : String) : Bool :=
  charsContain needle.data haystack.data

/-- The parts of a Django `request` read by
`DjangoAdapter.extract_request_data`: the `content_type` string, the body
parse outcome (consulted only when the content type mentions JSON), and the
multi-valued `POST` and `GET` query dicts. -/
structure DjangoRequest where
  content_type : String
  body : JsonBody
  post : List (String × List Jv)
  get : List (String × List Jv)

/-- Embedding of `DjangoAdapter.extract_request_data`: JSON body first, then form data
(`request.POST`) overwrites, then query parameters (`request.GET`)
overwrite; a declared JSON body that fails to parse raises
`GatewayValidationError("Invalid JSON in request body", [])`. -/
def DjangoAdapter.extract_request_data (req : DjangoRequest) :
    Except GatewayValidationError JObj :=
  match (if strContains req.content_type "application/json" then
           match req.body with
           | JsonBody.malformed => none
           | JsonBody.parsed obj =>
               some (if obj.isEmpty then ([] : JObj) else dictUpdate [] obj)
         else some []) with
  | none => Except.error ⟨"Invalid JSON in request body", []⟩
  | some d =>
    let d : JObj := req.post.foldl
      (fun d p => dictSet d p.1 (flattenValues p.2)) d
    let d : JObj := req.get.foldl
      (fun d p => dictSet d p.1 (flattenValues p.2)) d
    Except.ok d

/-- The value of one base64 character under `base64.urlsafe_b64decode`
(which first translates `-`/`_` to `+`/`/`, so both alphabets decode). -/
def b64Value (c : Char) : Option Nat :=
  if 'A' ≤ c ∧ c ≤ 'Z' then some (c.toNat - 'A'.toNat)
  else if 'a' ≤ c ∧ c ≤ 'z' then some (c.toNat - 'a'.toNat + 26)
  else if '0' ≤ c ∧ c ≤ '9' then some (c.toNat - '0'.toNat + 52)
  else if c = '-' ∨ c = '+' then some 62
  else if c = '_' ∨ c = '/' then some 63
  else none

/-- One pass of CPython's `binascii.a2b_base64` at its default non-strict
mode, as reached through `base64.b64decode` with `validate` left `False`:
characters outside the alphabet are discarded; a `=` is ignored while the
current four-character group holds fewer than two data characters, counts
toward the running pad total otherwise, and ends decoding successfully
(discarding all remaining input) once the group position plus the pads
seen reaches four; a partly filled group at the end of input fails
("Incorrect padding" / data-character count 1 more than a multiple of 4).
`quad_pos` is the position inside the current group, `leftchar` its
pending bits, `pads` the running pad count since the last data character,
`acc` the bytes emitted so far. -/
def a2bBase64Lax (quad_pos leftchar pads : Nat) (acc : List Nat) :
    List Char → Option (List Nat)
  | [] => if quad_pos = 0 then some acc else none
  | c :: rest =>
    if c = '=' then
      if 2 ≤ quad_pos then
        if 4 ≤ quad_pos + (pads + 1) then some acc
        else a2bBase64Lax quad_pos leftchar (pads + 1) acc rest
      else a2bBase64Lax quad_pos leftchar pads acc rest
    else
      match b64Value c with
      | none => a2bBase64Lax quad_pos leftchar pads acc rest
      | some v =>
        match quad_pos with
        | 0 => a2bBase64Lax 1 v 0 acc rest
        | 1 => a2bBase64Lax 2 (v % 16) 0 (acc ++ [leftchar * 4 + v / 16]) rest
        | 2 => a2bBase64Lax 3 (v % 4) 0 (acc ++ [leftchar * 16 + v / 4]) rest
        | _ => a2bBase64Lax 0 0 0 (acc ++ [leftchar * 64 + v]) rest

/-- Embedding of `base64.urlsafe_b64decode` as `simple_decode` invokes it
on a `str`: the argument is first ASCII-encoded (raising on any non-ASCII
character), `-`/`_` are translated to `+`/`/` (both alphabets are folded
into `b64Value`), and the bytes run through the non-strict
`a2b_base64`. -/
def urlsafe_b64decode (cs : List Char) : Option (List Nat) :=
  if cs.any (fun c => 128 ≤ c.toNat) then none
  else a2bBase64Lax 0 0 0 [] cs

/-- Padding `payload_b64 += "=" * (-len(payload_b64) % 4)`: restore standard
base64 padding to a multiple of four characters. -/
def padB64Chars (cs : List Char) : List Char :=
  cs ++ List.replicate ((4 - cs.length % 4) % 4) '='

/-- Python `s.split(sep)` for a one-character separator: no collapsing of
adjacent separators, and `"".split(sep) == [""]`. -/
def splitChars (sep : Char) : List Char → List (List Char)
  | [] => [[]]
  | c :: rest =>
    let r := splitChars sep rest
    if c = sep then [] :: r
    else
      match r with
      | [] => [[c]]
      | g :: gs => (c :: g) :: gs

/-- The exception `AuthError(message, status_code=401)` from `auth.py`. -/
structure AuthError where
  message : String
  status_code : Int
deriving DecidableEq

/-- Embedding of `simple_decode` from `auth.py`: take segment 1 of the dot-split token,
restore padding, base64url-decode, parse the bytes as a JSON object
(`json.loads`, taken as the opaque parameter `parseJson`); any failure along
the way is caught and re-raised as `AuthError("Invalid token format", 401)`.
No signature is inspected anywhere. -/
def simple_decode (parseJson : List Nat → Option JObj) (token : String) :
    Except AuthError JObj :=
  match (splitChars '.' token.data)[1]? with
  | none => Except.error ⟨"Invalid token format", 401⟩
  | some seg =>
    match urlsafe_b64decode (padB64Chars seg) with
    | none => Except.error ⟨"Invalid token format", 401⟩
    | some bytes =>
      match parseJson bytes with
      | none => Except.error ⟨"Invalid token format", 401⟩
      | some obj => Except.ok obj

/-- Outcome of a Python callable: a normal return, a raised `AuthError`, or
any other raised exception. -/
inductive PyResult (α : Type) where
  | ok (a : α)
  | authError (e : AuthError)
  | otherError

/-- Observable events of one decorated call: the wrapped handler being
invoked (with the payload bound to `user_payload`), and
`adapter.handle_auth_error` being invoked. -/
inductive AuthEvent where
  | handlerCalled (payload : JObj)
  | authErrorHandled (e : AuthError)

/-- The check `not auth_header or not auth_header.startswith("Bearer ")`, negated: a
present, non-empty header starting with `"Bearer "`. -/
def authHeaderOk (auth_header : Option String) : Bool :=
  match auth_header with
  | none => false
  | some s => !s.data.isEmpty && charsBeginWith "Bearer ".data s.data

/-- Token extraction `auth_header.split(" ")[1]`: the token substring after the scheme. -/
def bearerToken (auth_header : Option String) : String :=
  String.mk ((splitChars ' ' (auth_header.getD "").data).getD 1 [])

/-- Embedding of `require_token(adapter)(func)` applied to one request, instrumented
with the list of events that occurred.  `parseJson` stands for
`json.loads`, `auth_header` for `adapter.get_auth_header(...)`, `handle`
for `adapter.handle_auth_error`, and `func` for the wrapped handler.  The
`try` block spans the handler call itself, so an `AuthError` raised by the
handler is also converted by `handle`. -/
def require_token_run (parseJson : List Nat → Option JObj)
    (auth_header : Option String) (handle : AuthError → α)
    (func : JObj → PyResult α) : PyResult α × List AuthEvent :=
  let tryResult : PyResult α × List AuthEvent :=
    if authHeaderOk auth_header then
      match simple_decode parseJson (bearerToken auth_header) with
      | Except.error e => (PyResult.authError e, [])
      | Except.ok payload => (func payload, [AuthEvent.handlerCalled payload])
    else
      (PyResult.authError ⟨"Authorization header is missing or invalid", 401⟩, [])
  match tryResult with
  | (PyResult.authError e, evs) =>
      (PyResult.ok (handle e), evs ++ [AuthEvent.authErrorHandled e])
  | r => r

/-- Python truthiness of a JSON value (`not user_role`). -/
def jvTruthy : Jv → Bool
  | Jv.null => false
  | Jv.bool b => b
  | Jv.num n => n != 0
  | Jv.str s => !s.data.isEmpty
  | Jv.arr xs => !xs.isEmpty
  | Jv.obj fs => !fs.isEmpty

/-- Python `==` between a JSON value and a Python string (membership test
`user_role in allowed_roles` compares elementwise). -/
def jvEqStr (v : Jv) (r : String) : Bool :=
  match v with
  | Jv.str s => s = r
  | _ => false

/-- The role gate of `require_access`, negated from the source's
`if not user_role or user_role not in allowed_roles`. -/
def roleAllowed (payload : JObj) (allowed_roles : List String) : Bool :=
  match dictGet payload "role" with
  | none => false
  | some v => jvTruthy v && allowed_roles.any (fun r => jvEqStr v r)

/-- Embedding of `require_access(adapter, allowed_roles)(func)` applied to one request,
instrumented like `require_token_run`; after a successful decode the role
gate either lets the handler run or raises
`AuthError("You do not have permission to access this resource", 403)`. -/
def require_access_run (parseJson : List Nat → Option JObj)
    (allowed_roles : List String) (auth_header : Option String)
    (handle : AuthError → α) (func : JObj → PyResult α) :
    PyResult α × List AuthEvent :=
  let tryResult : PyResult α × List AuthEvent :=
    if authHeaderOk auth_header then
      match simple_decode parseJson (bearerToken auth_header) with
      | Except.error e => (PyResult.authError e, [])
      | Except.ok payload =>
        if roleAllowed payload allowed_roles then
          (func payload, [AuthEvent.handlerCalled payload])
        else
          (PyResult.authError
            ⟨"You do not have permission to access this resource", 403⟩, [])
    else
      (PyResult.authError ⟨"Authorization header is missing or invalid", 401⟩, [])
  match tryResult with
  | (PyResult.authError e, evs) =>
      (PyResult.ok (handle e), evs ++ [AuthEvent.authErrorHandled e])
  | r => r

/-- A framework JSON response: body object plus status code. -/
structure JsonResponse where
  body : JObj
  status_code : Int

/-- Embedding of `FlaskAdapter.handle_auth_error`: `jsonify({"detail": message})` with
the error's status code. -/
def FlaskAdapter.handle_auth_error (e : AuthError) : JsonResponse :=
  ⟨[("detail", Jv.str e.message)], e.status_code⟩

/-- Embedding of `FlaskAdapter.handle_validation_error`: `message`/`details` body with
status 422. -/
def FlaskAdapter.handle_validation_error (e : GatewayValidationError) :
    JsonResponse :=
  ⟨[("message", Jv.str e.message), ("details", Jv.arr e.details)], 422⟩

/-- Embedding of `DjangoAdapter.handle_validation_error`: `error`/`details` body with
status 400. -/
def DjangoAdapter.handle_validation_error (e : GatewayValidationError) :
    JsonResponse :=
  ⟨[("error", Jv.str e.message), ("details", Jv.arr e.details)], 400⟩

/-- Outcome of an adapter's validation-error conversion: a framework
response, or the error re-raised to the caller. -/
inductive ValidationErrorOutcome where
  | response (r : JsonResponse)
  | raised (e : GatewayValidationError)

/-- Embedding of `GenericAdapter.handle_validation_error`: `raise error` — the error is
re-raised unchanged for the caller to handle. -/
def GenericAdapter.handle_validation_error (e : GatewayValidationError) :
    ValidationErrorOutcome :=
  ValidationErrorOutcome.raised e

/-- A Python value as seen by the FastAPI adapter: either a Pydantic
`BaseModel` instance (carrying its field mapping, what `model_dump()` /
`dict()` returns) or any other value. -/
inductive PyVal where
  | model (fields : JObj)
  | plain (v : Jv)

/-- The test `isinstance(value, BaseModel)`. -/
def PyVal.isPydanticModel : PyVal → Bool
  | PyVal.model _ => true
  | PyVal.plain _ => false

/-- Embedding of `FastAPIAdapter._model_to_dict`: the model's field mapping
(`model_dump()` for Pydantic v2, `dict()` for v1), `{}` otherwise. -/
def FastAPIAdapter.model_to_dict : PyVal → JObj
  | PyVal.model fields => fields
  | PyVal.plain _ => []

/-- Return shape of `FastAPIAdapter.extract_request_data`: either the
`(dict_data, validated_model)` tuple signalling validation already done, or
a bare dict (the no-model fallback). -/
inductive ExtractOutcome where
  | already_validated (data : JObj) (model : PyVal)
  | raw (data : JObj)

/-- The kwargs loop of `FastAPIAdapter.extract_request_data`: first keyword
value that is a Pydantic model, in dict insertion order. -/
def FastAPIAdapter.findKwargsModel : List (String × PyVal) → Option PyVal
  | [] => none
  | (_, v) :: rest =>
    if v.isPydanticModel then some v else FastAPIAdapter.findKwargsModel rest

/-- The positional-args loop of `FastAPIAdapter.extract_request_data`. -/
def FastAPIAdapter.findArgsModel : List PyVal → Option PyVal
  | [] => none
  | v :: rest =>
    if v.isPydanticModel then some v else FastAPIAdapter.findArgsModel rest

/-- Embedding of `FastAPIAdapter.extract_request_data`: scan kwargs, then positional
args, for a Pydantic model; return `(dict, model)` for the first hit, or a
bare `{}` when none is found. -/
def FastAPIAdapter.extract_request_data (args : List PyVal)
    (kwargs : List (String × PyVal)) : ExtractOutcome :=
  match FastAPIAdapter.findKwargsModel kwargs with
  | some v => ExtractOutcome.already_validated (FastAPIAdapter.model_to_dict v) v
  | none =>
    match FastAPIAdapter.findArgsModel args with
    | some v =>
        ExtractOutcome.already_validated (FastAPIAdapter.model_to_dict v) v
    | none => ExtractOutcome.raw []

/-- Default of the env-configurable `ACCESS_TOKEN_EXPIRE_MINUTES`. -/
def ACCESS_TOKEN_EXPIRE_MINUTES : Int := 30

/-- The claim set built by `create_access_token` in `auth_utils.py`:
`data.copy()` updated with `exp` and `iat`.  The source calls
`datetime.now(timezone.utc)` twice — once inside the `exp` expression and
once inside the `iat` expression — and truncates each to whole epoch
seconds with `int(...)`; `now_exp` and `now_iat` are those two successive
clock readings in epoch seconds (`int((t + timedelta(minutes=m)).timestamp())
= int(t.timestamp()) + 60*m` since the offset is a whole number of
seconds). -/
def create_access_token_claims (expire_minutes : Int) (now_exp now_iat : Int)
    (data : JObj) : JObj :=
  dictUpdate data
    [("exp", Jv.num (now_exp + expire_minutes * 60)), ("iat", Jv.num now_iat)]

/-- One validator chain step: run each function in declared order, each
receiving the previous result, stopping at the first raise. -/
def run_validators (validators : List (α → Except GatewayValidationError α))
    (x : α) : Except GatewayValidationError α :=
  match validators with
  | [] => Except.ok x
  | f :: rest =>
    match f x with
    | Except.ok y => run_validators rest y
    | Except.error e => Except.error e

/-- Modelled from the spec: the validation pipeline module
(`apigateway.core.validation`, providing `validate` / `validate_flask` /
`validate_fastapi`) is not among the provided sources — only its adapters
and tests are.  Per spec §4.4 the pipeline runs adapter extraction, then
the pre-validators in declared order over the raw mapping, then schema
validation, then the post-validators in declared order over the validated
object, then the handler on the final object; any raise short-circuits. -/
def validate_pipeline (extracted : Except GatewayValidationError JObj)
    (pre_validators : List (JObj → Except GatewayValidationError JObj))
    (schema_validate : JObj → Except GatewayValidationError V)
    (post_validators : List (V → Except GatewayValidationError V))
    (handler : V → R) : Except GatewayValidationError R :=
  match extracted with
  | Except.error e => Except.error e
  | Except.ok d =>
    match run_validators pre_validators d with
    | Except.error e => Except.error e
    | Except.ok d =>
      match schema_validate d with
      | Except.error e => Except.error e
      | Except.ok v =>
        match run_validators post_validators v with
        | Except.error e => Except.error e
        | Except.ok v => Except.ok (handler v)

/-- The bytes of an ASCII string (UTF-8 agrees with code points there),
for describing what `base64.urlsafe_b64decode` hands to `json.loads`. -/
def asciiBytes (s : String) : List Nat :=
  s.data.map Char.toNat

/-- The payload object of the JSON text `{"role": "admin"}`. -/
def adminPayload : JObj := [("role", Jv.str "admin")]

/-- A concrete stand-in for `json.loads` defined on the byte string
`{"role": "admin"}` (and nothing else), mirroring what the real parser
returns there. -/
def parseJsonAdmin : List Nat → Option JObj :=
  fun bs =>
    if bs = asciiBytes "\x7b\"role\": \"admin\"\x7d" then some adminPayload
    else none

/-- A token whose middle segment is the base64url encoding of
`{"role": "admin"}`. -/
def adminToken : String := "h.eyJyb2xlIjogImFkbWluIn0.s"

/-- The payload object of the JSON text `{"role": ""}`. -/
def emptyRolePayload : JObj := [("role", Jv.str "")]

/-- A concrete stand-in for `json.loads` defined on the byte string
`{"role": ""}` (and nothing else). -/
def parseJsonEmptyRole : List Nat → Option JObj :=
  fun bs =>
    if bs = asciiBytes "\x7b\"role\": \"\"\x7d" then some emptyRolePayload
    else none

/-- A token whose middle segment is the base64url encoding of
`{"role": ""}`. -/
def emptyRoleToken : String := "h.eyJyb2xlIjogIiJ9.s"

/-- C1, counterexample: a Django request carrying the key `x` with
query-string value `"a"`, form value `"b"` and JSON-body value `"c"`
extracts to `x ↦ "a"` — the query value, not the JSON value `"c"` the claim
requires, because `DjangoAdapter.extract_request_data` merges the JSON body
first and lets form and then query data overwrite it. -/
theorem django_merge_query_wins_counterexample :
    DjangoAdapter.extract_request_data
      ⟨"application/json", JsonBody.parsed [("x", Jv.str "c")],
        [("x", [Jv.str "b"])], [("x", [Jv.str "a"])]⟩
      = Except.ok [("x", Jv.str "a")]
    ∧ Jv.str "a" ≠ Jv.str "c" := by
  refine ⟨by rfl, fun h => ?_⟩
  injection h with h2
  exact absurd h2 (by decide)

/-- C1, amended: with the same key carrying query value `a`, form value `b`
and JSON value `c`, the Flask adapter extracts the JSON value `c`
(precedence query → form → JSON, later overwrites earlier), while the
Django adapter extracts the query value `a` (it merges JSON first, then
form, then query, later overwrites earlier). -/
theorem merge_precedence_flask_json_django_query (k : String) (a b c : Jv) :
    FlaskAdapter.extract_request_data
      ⟨[(k, [a])], [(k, [b])], true, JsonBody.parsed [(k, c)]⟩
      = Except.ok [(k, c)]
    ∧ DjangoAdapter.extract_request_data
      ⟨"application/json", JsonBody.parsed [(k, c)], [(k, [b])], [(k, [a])]⟩
      = Except.ok [(k, a)] := by
  constructor
  · simp [FlaskAdapter.extract_request_data, dictSet, dictUpdate, flattenValues]
  · simp [DjangoAdapter.extract_request_data, dictSet, dictUpdate,
      flattenValues, strContains, charsContain, charsBeginWith]

/-- C6: a declared-JSON request whose body does not parse makes
`extract_request_data` raise a `GatewayValidationError` — message
`"Invalid JSON format in request body"` for Flask and
`"Invalid JSON in request body"` for Django — so no request data mapping is
ever produced for later pipeline stages. -/
theorem malformed_json_raises_validation_error (freq : FlaskRequest)
    (dreq : DjangoRequest) (hf1 : freq.is_json = true)
    (hf2 : freq.json_body = JsonBody.malformed)
    (hd1 : strContains dreq.content_type "application/json" = true)
    (hd2 : dreq.body = JsonBody.malformed) :
    FlaskAdapter.extract_request_data freq
      = Except.error ⟨"Invalid JSON format in request body", []⟩
    ∧ DjangoAdapter.extract_request_data dreq
      = Except.error ⟨"Invalid JSON in request body", []⟩ := by
  constructor
  · simp [FlaskAdapter.extract_request_data, hf1, hf2]
  · simp [DjangoAdapter.extract_request_data, hd1, hd2]

/-- C6, witness at concrete malformed-JSON requests. -/
theorem malformed_json_raises_validation_error_witness :
    FlaskAdapter.extract_request_data ⟨[], [], true, JsonBody.malformed⟩
      = Except.error ⟨"Invalid JSON format in request body", []⟩
    ∧ DjangoAdapter.extract_request_data
        ⟨"application/json", JsonBody.malformed, [], []⟩
      = Except.error ⟨"Invalid JSON in request body", []⟩ :=
  malformed_json_raises_validation_error
    ⟨[], [], true, JsonBody.malformed⟩
    ⟨"application/json", JsonBody.malformed, [], []⟩
    rfl rfl (by decide) rfl

/-- C7: for every `GatewayValidationError e`, the Flask adapter renders a
JSON response `{"message": e.message, "details": e.details}` with status
422, the Django adapter renders `{"error": e.message, "details": e.details}`
with status 400, and the Generic adapter re-raises `e` unchanged. -/
theorem validation_error_conversion_shapes (e : GatewayValidationError) :
    FlaskAdapter.handle_validation_error e
      = ⟨[("message", Jv.str e.message), ("details", Jv.arr e.details)], 422⟩
    ∧ DjangoAdapter.handle_validation_error e
      = ⟨[("error", Jv.str e.message), ("details", Jv.arr e.details)], 400⟩
    ∧ GenericAdapter.handle_validation_error e
      = ValidationErrorOutcome.raised e :=
  ⟨rfl, rfl, rfl⟩

/-- The scan `findKwargsModel` is the first kwargs entry whose value is a model. -/
theorem findKwargsModel_eq_find (kwargs : List (String × PyVal)) :
    FastAPIAdapter.findKwargsModel kwargs
      = (kwargs.find? (fun p => p.2.isPydanticModel)).map Prod.snd := by
  induction kwargs with
  | nil => rfl
  | cons p rest ih =>
    by_cases h : p.2.isPydanticModel = true
    · simp [FastAPIAdapter.findKwargsModel, List.find?, h]
    · simp only [Bool.not_eq_true] at h
      simp [FastAPIAdapter.findKwargsModel, List.find?, h, ih]

/-- The scan `findArgsModel` is the first positional argument that is a model. -/
theorem findArgsModel_eq_find (args : List PyVal) :
    FastAPIAdapter.findArgsModel args = args.find? PyVal.isPydanticModel := by
  induction args with
  | nil => rfl
  | cons v rest ih =>
    by_cases h : v.isPydanticModel = true
    · simp [FastAPIAdapter.findArgsModel, List.find?, h]
    · simp only [Bool.not_eq_true] at h
      simp [FastAPIAdapter.findArgsModel, List.find?, h, ih]

/-- C10: the FastAPI adapter's extraction returns the
`(field mapping, model)` pair for the first Pydantic-model keyword value —
keyword arguments are searched before positional ones — else the pair for
the first Pydantic-model positional argument, and the bare empty mapping
(not a pair) when no argument is a model. -/
theorem fastapi_extract_first_model (args : List PyVal)
    (kwargs : List (String × PyVal)) :
    FastAPIAdapter.extract_request_data args kwargs
      = match kwargs.find? (fun p => p.2.isPydanticModel) with
        | some p =>
            ExtractOutcome.already_validated (FastAPIAdapter.model_to_dict p.2) p.2
        | none =>
          match args.find? PyVal.isPydanticModel with
          | some v =>
              ExtractOutcome.already_validated (FastAPIAdapter.model_to_dict v) v
          | none => ExtractOutcome.raw [] := by
  unfold FastAPIAdapter.extract_request_data
  rw [findKwargsModel_eq_find, findArgsModel_eq_find]
  cases kwargs.find? (fun p => p.2.isPydanticModel) <;>
    cases args.find? PyVal.isPydanticModel <;> rfl

/-- A header that begins with `"Bearer "` is non-empty. -/
theorem bearer_header_nonempty (s : String)
    (h : charsBeginWith "Bearer ".data s.data = true) :
    s.data.isEmpty = false := by
  cases hs : s.data with
  | nil => rw [hs] at h; exact absurd h (by decide)
  | cons c cs => rfl

/-- A header that begins with `"Bearer "` passes the decorators' header
check. -/
theorem authHeaderOk_of_bearer (s : String)
    (h : charsBeginWith "Bearer ".data s.data = true) :
    authHeaderOk (some s) = true := by
  simp [authHeaderOk, bearer_header_nonempty s h, h]

/-- C4: whenever the adapter reports no Authorization header or one not
prefixed by `"Bearer "`, both decorators return the adapter's conversion of
`AuthError("Authorization header is missing or invalid", 401)` — rendered
by the Flask adapter as `{"detail": message}` with status 401 — and the
wrapped handler is never invoked (the event trace holds only the error
conversion). -/
theorem missing_or_malformed_header_401 (parseJson : List Nat → Option JObj)
    (allowed_roles : List String) (hdr : Option String)
    (handle : AuthError → α) (func func2 : JObj → PyResult α)
    (h : hdr = none
      ∨ ∃ s, hdr = some s ∧ charsBeginWith "Bearer ".data s.data = false) :
    require_token_run parseJson hdr handle func
      = (PyResult.ok (handle ⟨"Authorization header is missing or invalid", 401⟩),
         [AuthEvent.authErrorHandled
            ⟨"Authorization header is missing or invalid", 401⟩])
    ∧ require_access_run parseJson allowed_roles hdr handle func2
      = (PyResult.ok (handle ⟨"Authorization header is missing or invalid", 401⟩),
         [AuthEvent.authErrorHandled
            ⟨"Authorization header is missing or invalid", 401⟩])
    ∧ FlaskAdapter.handle_auth_error
        ⟨"Authorization header is missing or invalid", 401⟩
      = ⟨[("detail", Jv.str "Authorization header is missing or invalid")], 401⟩ := by
  have hok : authHeaderOk hdr = false := by
    rcases h with h | ⟨s, rfl, hs⟩
    · rw [h]; rfl
    · simp [authHeaderOk, hs]
  refine ⟨?_, ?_, rfl⟩
  · simp [require_token_run, hok]
  · simp [require_access_run, hok]

/-- C4, witness at an absent header. -/
theorem missing_or_malformed_header_401_witness :
    require_token_run parseJsonAdmin none FlaskAdapter.handle_auth_error
        (fun _ => PyResult.ok (⟨[], 200⟩ : JsonResponse))
      = (PyResult.ok
          (FlaskAdapter.handle_auth_error
            ⟨"Authorization header is missing or invalid", 401⟩),
         [AuthEvent.authErrorHandled
            ⟨"Authorization header is missing or invalid", 401⟩]) :=
  (missing_or_malformed_header_401 parseJsonAdmin [] none
    FlaskAdapter.handle_auth_error (fun _ => PyResult.ok ⟨[], 200⟩)
    (fun _ => PyResult.ok ⟨[], 200⟩) (Or.inl rfl)).1

/-- C5: `simple_decode` fails — and then always with
`AuthError("Invalid token format", 401)` — exactly when the token has fewer
than two dot-separated segments, or its middle segment does not base64url-
decode after padding restoration, or the decoded bytes do not parse as a
JSON object; on every structurally valid token it returns the parsed
object (no signature is consulted anywhere in the definition). -/
theorem simple_decode_structural (parse : List Nat → Option JObj)
    (token : String) :
    ((∃ e, simple_decode parse token = Except.error e) ↔
      ((splitChars '.' token.data).length < 2
        ∨ urlsafe_b64decode (padB64Chars ((splitChars '.' token.data).getD 1 []))
            = none
        ∨ (urlsafe_b64decode
            (padB64Chars ((splitChars '.' token.data).getD 1 []))).bind parse
            = none))
    ∧ (∀ e, simple_decode parse token = Except.error e
        → e = ⟨"Invalid token format", 401⟩)
    ∧ (∀ obj, 2 ≤ (splitChars '.' token.data).length →
        (urlsafe_b64decode
          (padB64Chars ((splitChars '.' token.data).getD 1 []))).bind parse
          = some obj →
        simple_decode parse token = Except.ok obj) := by
  cases hseg : (splitChars '.' token.data)[1]? with
  | none =>
    have hlen : (splitChars '.' token.data).length ≤ 1 :=
      List.getElem?_eq_none_iff.mp hseg
    have hdec : simple_decode parse token
        = Except.error ⟨"Invalid token format", 401⟩ := by
      unfold simple_decode
      simp only [hseg]
    refine ⟨⟨fun _ => Or.inl (by omega), fun _ => ⟨_, hdec⟩⟩,
      fun e he => ?_, fun obj h2 _ => by omega⟩
    rw [hdec] at he
    exact (Except.error.inj he).symm
  | some seg =>
    have hlen : 2 ≤ (splitChars '.' token.data).length := by
      rcases Nat.lt_or_ge (splitChars '.' token.data).length 2 with hc | hc
      · exfalso
        have hn : (splitChars '.' token.data)[1]? = none :=
          List.getElem?_eq_none_iff.mpr (by omega)
        rw [hseg] at hn
        cases hn
      · exact hc
    have hgetD : (splitChars '.' token.data).getD 1 [] = seg := by
      rw [List.getD_eq_getElem?_getD, hseg]
      rfl
    rw [hgetD]
    cases hb : urlsafe_b64decode (padB64Chars seg) with
    | none =>
      have hdec : simple_decode parse token
          = Except.error ⟨"Invalid token format", 401⟩ := by
        unfold simple_decode
        simp only [hseg, hb]
      refine ⟨⟨fun _ => Or.inr (Or.inl rfl), fun _ => ⟨_, hdec⟩⟩,
        fun e he => ?_, fun obj _ hsome => ?_⟩
      · rw [hdec] at he
        exact (Except.error.inj he).symm
      · simp at hsome
    | some bytes =>
      cases hp : parse bytes with
      | none =>
        have hdec : simple_decode parse token
            = Except.error ⟨"Invalid token format", 401⟩ := by
          unfold simple_decode
          simp only [hseg, hb, hp]
        refine ⟨⟨fun _ => Or.inr (Or.inr (by simpa using hp)),
          fun _ => ⟨_, hdec⟩⟩, fun e he => ?_, fun obj _ hsome => ?_⟩
        · rw [hdec] at he
          exact (Except.error.inj he).symm
        · simp [hp] at hsome
      | some obj =>
        have hdec : simple_decode parse token = Except.ok obj := by
          unfold simple_decode
          simp only [hseg, hb, hp]
        refine ⟨⟨fun h => ?_, fun hr => ?_⟩, fun e he => ?_,
          fun obj2 _ hsome => ?_⟩
        · rcases h with ⟨e, he⟩
          rw [hdec] at he
          cases he
        · exfalso
          rcases hr with hr | hr | hr
          · omega
          · cases hr
          · simp [hp] at hr
        · rw [hdec] at he
          cases he
        · simp [hp] at hsome
          rw [hdec, hsome]

/-- C5, witness: a concrete structurally valid token decodes to its
payload object. -/
theorem simple_decode_structural_witness :
    simple_decode parseJsonAdmin adminToken = Except.ok adminPayload :=
  (simple_decode_structural parseJsonAdmin adminToken).2.2 adminPayload
    (by decide) (by rfl)

example :
    urlsafe_b64decode (padB64Chars "eyJyb2xlIjogImFkbWluIn0=!!!!".data)
      = some (asciiBytes "\x7b\"role\": \"admin\"\x7d") := by rfl

example :
    simple_decode parseJsonAdmin "h.eyJyb2xlIjogImFkbWluIn0=!!!!.s"
      = Except.ok adminPayload := by rfl

/-- The per-call outcome pattern of the auth decorators: only the error
converter ran, only the handler ran (and did not raise `AuthError`), or —
when the handler itself raised an `AuthError` — the handler ran and then
the error converter ran on the handler's error. -/
def eventShape (func : JObj → PyResult α) (evs : List AuthEvent) : Prop :=
  (∃ e, evs = [AuthEvent.authErrorHandled e])
  ∨ (∃ p, evs = [AuthEvent.handlerCalled p]
      ∧ ∀ e, func p ≠ PyResult.authError e)
  ∨ (∃ p e, evs = [AuthEvent.handlerCalled p, AuthEvent.authErrorHandled e]
      ∧ func p = PyResult.authError e)

/-- C2, amended: per call through `require_token` or `require_access`,
exactly one of {handler invoked with the decoded payload, auth-error
converter invoked and its result returned} happens — never neither — except
when the wrapped handler itself raises an `AuthError`: then the handler is
invoked and the converter is additionally invoked on the handler's error
(the decorators' `try` block spans the handler call). -/
theorem auth_decorator_event_dichotomy (parseJson : List Nat → Option JObj)
    (allowed_roles : List String) (hdr : Option String)
    (handle : AuthError → α) (func : JObj → PyResult α) :
    eventShape func (require_token_run parseJson hdr handle func).2
    ∧ eventShape func (require_access_run parseJson allowed_roles hdr handle func).2 := by
  constructor
  · by_cases hok : authHeaderOk hdr = true
    · cases hd : simple_decode parseJson (bearerToken hdr) with
      | error e =>
        exact Or.inl ⟨e, by simp [require_token_run, hok, hd]⟩
      | ok p =>
        cases hf : func p with
        | ok a =>
          refine Or.inr (Or.inl ⟨p, by simp [require_token_run, hok, hd, hf],
            fun e he => ?_⟩)
          rw [hf] at he
          cases he
        | authError e =>
          exact Or.inr (Or.inr ⟨p, e,
            by simp [require_token_run, hok, hd, hf], hf⟩)
        | otherError =>
          refine Or.inr (Or.inl ⟨p, by simp [require_token_run, hok, hd, hf],
            fun e he => ?_⟩)
          rw [hf] at he
          cases he
    · rw [Bool.not_eq_true] at hok
      exact Or.inl ⟨⟨"Authorization header is missing or invalid", 401⟩,
        by simp [require_token_run, hok]⟩
  · by_cases hok : authHeaderOk hdr = true
    · cases hd : simple_decode parseJson (bearerToken hdr) with
      | error e =>
        exact Or.inl ⟨e, by simp [require_access_run, hok, hd]⟩
      | ok p =>
        by_cases hr : roleAllowed p allowed_roles = true
        · cases hf : func p with
          | ok a =>
            refine Or.inr (Or.inl ⟨p,
              by simp [require_access_run, hok, hd, hr, hf], fun e he => ?_⟩)
            rw [hf] at he
            cases he
          | authError e =>
            exact Or.inr (Or.inr ⟨p, e,
              by simp [require_access_run, hok, hd, hr, hf], hf⟩)
          | otherError =>
            refine Or.inr (Or.inl ⟨p,
              by simp [require_access_run, hok, hd, hr, hf], fun e he => ?_⟩)
            rw [hf] at he
            cases he
        · rw [Bool.not_eq_true] at hr
          exact Or.inl
            ⟨⟨"You do not have permission to access this resource", 403⟩,
              by simp [require_access_run, hok, hd, hr]⟩
    · rw [Bool.not_eq_true] at hok
      exact Or.inl ⟨⟨"Authorization header is missing or invalid", 401⟩,
        by simp [require_access_run, hok]⟩

/-- C2, counterexample: with a well-formed header, a decodable token and a
wrapped handler that itself raises `AuthError("boom", 401)`, one call both
invokes the handler and invokes `handle_auth_error` (returning its result)
— refuting "never both ... for every behavior of the wrapped handler". -/
theorem auth_decorator_both_outcomes_counterexample :
    require_token_run parseJsonAdmin (some ("Bearer " ++ adminToken))
        FlaskAdapter.handle_auth_error
        (fun _ => PyResult.authError ⟨"boom", 401⟩)
      = (PyResult.ok ⟨[("detail", Jv.str "boom")], 401⟩,
         [AuthEvent.handlerCalled adminPayload,
          AuthEvent.authErrorHandled ⟨"boom", 401⟩])
    ∧ AuthEvent.handlerCalled adminPayload
        ∈ (require_token_run parseJsonAdmin (some ("Bearer " ++ adminToken))
            FlaskAdapter.handle_auth_error
            (fun _ => PyResult.authError ⟨"boom", 401⟩)).2
    ∧ AuthEvent.authErrorHandled ⟨"boom", 401⟩
        ∈ (require_token_run parseJsonAdmin (some ("Bearer " ++ adminToken))
            FlaskAdapter.handle_auth_error
            (fun _ => PyResult.authError ⟨"boom", 401⟩)).2 :=
  ⟨rfl,
   show AuthEvent.handlerCalled adminPayload
       ∈ [AuthEvent.handlerCalled adminPayload,
          AuthEvent.authErrorHandled ⟨"boom", 401⟩] from
     List.mem_cons_self _ _,
   show AuthEvent.authErrorHandled ⟨"boom", 401⟩
       ∈ [AuthEvent.handlerCalled adminPayload,
          AuthEvent.authErrorHandled ⟨"boom", 401⟩] from
     List.mem_cons_of_mem _ (List.mem_cons_self _ _)⟩

/-- C3, counterexample: the payload decoded from a well-formed Bearer token
carries a `role` claim that is present (the empty string) and is a member
of `allowed_roles = [""]`, yet the handler is not invoked: the gate tests
Python truthiness (`not user_role`), so the falsy role yields the 403
conversion instead. -/
theorem role_gate_truthiness_counterexample :
    dictGet emptyRolePayload "role" = some (Jv.str "")
    ∧ "" ∈ [""]
    ∧ simple_decode parseJsonEmptyRole emptyRoleToken
        = Except.ok emptyRolePayload
    ∧ require_access_run parseJsonEmptyRole [""]
        (some ("Bearer " ++ emptyRoleToken)) FlaskAdapter.handle_auth_error
        (fun _ => PyResult.ok (⟨[], 200⟩ : JsonResponse))
      = (PyResult.ok
          ⟨[("detail",
             Jv.str "You do not have permission to access this resource")],
            403⟩,
         [AuthEvent.authErrorHandled
            ⟨"You do not have permission to access this resource", 403⟩]) :=
  ⟨rfl, List.mem_cons_self _ _, rfl, rfl⟩

/-- C3, amended: through `require_access` with a present well-formed
`Authorization: Bearer ...` header whose token decodes, the wrapped handler
is invoked iff the decoded payload's `role` claim is present, truthy, and a
member of `allowed_roles` (`roleAllowed`); otherwise the call returns the
adapter's conversion of AuthError 403 "You do not have permission to access
this resource" and the handler is never invoked. -/
theorem require_access_role_gate (parseJson : List Nat → Option JObj)
    (allowed_roles : List String) (s : String) (handle : AuthError → α)
    (func : JObj → PyResult α) (payload : JObj)
    (hpre : charsBeginWith "Bearer ".data s.data = true)
    (hdec : simple_decode parseJson (bearerToken (some s))
      = Except.ok payload) :
    (AuthEvent.handlerCalled payload
        ∈ (require_access_run parseJson allowed_roles (some s) handle func).2
      ↔ roleAllowed payload allowed_roles = true)
    ∧ (roleAllowed payload allowed_roles = false →
        require_access_run parseJson allowed_roles (some s) handle func
          = (PyResult.ok
              (handle ⟨"You do not have permission to access this resource",
                403⟩),
             [AuthEvent.authErrorHandled
                ⟨"You do not have permission to access this resource",
                  403⟩])) := by
  have hok : authHeaderOk (some s) = true := authHeaderOk_of_bearer s hpre
  by_cases hr : roleAllowed payload allowed_roles = true
  · refine ⟨⟨fun _ => hr, fun _ => ?_⟩, fun hfalse => ?_⟩
    · cases hf : func payload <;>
        simp [require_access_run, hok, hdec, hr, hf]
    · rw [hr] at hfalse
      cases hfalse
  · rw [Bool.not_eq_true] at hr
    refine ⟨⟨fun hmem => ?_, fun htrue => ?_⟩, fun _ => ?_⟩
    · simp [require_access_run, hok, hdec, hr] at hmem
    · rw [htrue] at hr
      cases hr
    · simp [require_access_run, hok, hdec, hr]

/-- C3, witness: an admin-role token against `allowed_roles = ["admin"]`
reaches the handler. -/
theorem require_access_role_gate_witness :
    AuthEvent.handlerCalled adminPayload
      ∈ (require_access_run parseJsonAdmin ["admin"]
          (some ("Bearer " ++ adminToken)) FlaskAdapter.handle_auth_error
          (fun _ => PyResult.ok (⟨[], 200⟩ : JsonResponse))).2 :=
  (require_access_role_gate parseJsonAdmin ["admin"] ("Bearer " ++ adminToken)
      FlaskAdapter.handle_auth_error
      (fun _ => PyResult.ok ⟨[], 200⟩) adminPayload
      (by decide) (by rfl)).1.mpr (by rfl)

/-- Replacing every binding of key `k1` does not change lookups of other
keys. -/
theorem dictGet_map_set_ne (d : JObj) (k k1 : String) (v : Jv)
    (hk : ¬ k = k1) :
    dictGet (d.map (fun p => if p.1 = k1 then (k1, v) else p)) k
      = dictGet d k := by
  induction d with
  | nil => rfl
  | cons p l ih =>
    obtain ⟨pk, pv⟩ := p
    dsimp only [List.map_cons]
    by_cases hp : pk = k1
    · have hk2 : ¬ k = pk := fun h => hk (h.trans hp)
      rw [if_pos hp]
      simp [dictGet, hk, hk2, ih]
    · rw [if_neg hp]
      by_cases hkp : k = pk <;> simp [dictGet, hkp, ih]

/-- Replacing every binding of a present key `k` makes `k` look up the new
value. -/
theorem dictGet_set_present (d : JObj) (k : String) (v : Jv)
    (hmem : (d.any fun p => p.1 = k) = true) :
    dictGet (d.map (fun p => if p.1 = k then (k, v) else p)) k = some v := by
  induction d with
  | nil => cases hmem
  | cons p l ih =>
    obtain ⟨pk, pv⟩ := p
    dsimp only [List.map_cons]
    by_cases hp : pk = k
    · rw [if_pos hp]
      simp [dictGet]
    · rw [if_neg hp]
      have hmem' : (l.any fun p => p.1 = k) = true := by
        simpa [hp] using hmem
      have hk' : ¬ k = pk := fun h => hp h.symm
      simp [dictGet, hk', ih hmem']

/-- Lookup over an append: the left part is consulted first. -/
theorem dictGet_append (d t : JObj) (k : String) :
    dictGet (d ++ t) k
      = match dictGet d k with
        | some w => some w
        | none => dictGet t k := by
  induction d with
  | nil => rfl
  | cons p l ih =>
    obtain ⟨pk, pv⟩ := p
    by_cases h : k = pk <;> simp [dictGet, h, ih]

/-- A key no entry carries looks up to nothing. -/
theorem dictGet_of_any_false (d : JObj) (k : String)
    (h : (d.any fun p => p.1 = k) = false) : dictGet d k = none := by
  induction d with
  | nil => rfl
  | cons p l ih =>
    obtain ⟨pk, pv⟩ := p
    simp only [List.any_cons, Bool.or_eq_false_iff] at h
    have hpk : ¬ pk = k := by simpa using h.1
    have hk : ¬ k = pk := fun hh => hpk hh.symm
    simp [dictGet, hk, ih h.2]

/-- The update `dictSet` behaves like pointwise update under lookup. -/
theorem dictGet_dictSet (d : JObj) (k k1 : String) (v : Jv) :
    dictGet (dictSet d k1 v) k = if k = k1 then some v else dictGet d k := by
  unfold dictSet
  by_cases hmem : (d.any fun p => p.1 = k1) = true
  · simp only [hmem, if_true]
    by_cases hk : k = k1
    · subst hk
      simp [dictGet_set_present d k v hmem]
    · simp [hk, dictGet_map_set_ne d k k1 v hk]
  · rw [Bool.not_eq_true] at hmem
    simp only [hmem, Bool.false_eq_true, if_false]
    rw [dictGet_append]
    by_cases hk : k = k1
    · subst hk
      rw [dictGet_of_any_false d k hmem]
      simp [dictGet]
    · cases hd : dictGet d k <;> simp [dictGet, hk, hd]

/-- C9, counterexample: `create_access_token` reads the clock once for
`exp` and again, separately, for `iat`; when the first reading falls in
epoch second 0 and the second in epoch second 1, the issued claim set has
`exp - iat = 1799`, not `ACCESS_TOKEN_EXPIRE_MINUTES * 60 = 1800`. -/
theorem create_access_token_two_readings_counterexample :
    dictGet (create_access_token_claims 30 0 1 []) "exp" = some (Jv.num 1800)
    ∧ dictGet (create_access_token_claims 30 0 1 []) "iat" = some (Jv.num 1)
    ∧ (1800 : Int) - 1 ≠ 30 * 60 :=
  ⟨rfl, rfl, by decide⟩

/-- C9, amended: when the two `datetime.now(timezone.utc)` readings fall in
the same epoch second `t`, the issued claim set maps `exp` to
`t + expire_minutes * 60` and `iat` to `t` (so `exp - iat` equals the
expiry window in seconds, `30 * 60` at the default), overwrites any
caller-supplied `exp`/`iat`, and leaves every other claim untouched. -/
theorem create_access_token_claims_spec (expire_minutes t : Int)
    (data : JObj) (k : String) (hk1 : k ≠ "exp") (hk2 : k ≠ "iat") :
    dictGet (create_access_token_claims expire_minutes t t data) "exp"
      = some (Jv.num (t + expire_minutes * 60))
    ∧ dictGet (create_access_token_claims expire_minutes t t data) "iat"
      = some (Jv.num t)
    ∧ (t + expire_minutes * 60) - t = expire_minutes * 60
    ∧ dictGet (create_access_token_claims expire_minutes t t data) k
      = dictGet data k := by
  unfold create_access_token_claims dictUpdate
  simp only [List.foldl_cons, List.foldl_nil]
  refine ⟨?_, ?_, by ring, ?_⟩
  · rw [dictGet_dictSet, dictGet_dictSet]
    simp
  · rw [dictGet_dictSet]
    simp
  · rw [dictGet_dictSet, dictGet_dictSet]
    simp [hk1, hk2]

/-- C9, witness: issuing at second 1000 with caller-supplied `exp`/`iat`
claims present. -/
theorem create_access_token_claims_spec_witness :
    dictGet (create_access_token_claims 30 1000 1000
        [("sub", Jv.str "alice"), ("exp", Jv.num 5), ("iat", Jv.num 7)])
        "exp"
      = some (Jv.num (1000 + 30 * 60))
    ∧ dictGet (create_access_token_claims 30 1000 1000
        [("sub", Jv.str "alice"), ("exp", Jv.num 5), ("iat", Jv.num 7)])
        "iat"
      = some (Jv.num 1000)
    ∧ ((1000 : Int) + 30 * 60) - 1000 = 30 * 60
    ∧ dictGet (create_access_token_claims 30 1000 1000
        [("sub", Jv.str "alice"), ("exp", Jv.num 5), ("iat", Jv.num 7)])
        "sub"
      = some (Jv.str "alice") := by
  have h := create_access_token_claims_spec 30 1000
    [("sub", Jv.str "alice"), ("exp", Jv.num 5), ("iat", Jv.num 7)]
    "sub" (by decide) (by decide)
  exact ⟨h.1, h.2.1, h.2.2.1, by rw [h.2.2.2]; rfl⟩

/-- C8: a handler registered with post-validators `[f, g]` in that order
receives, for every validated object `v` on which neither raises, exactly
`g (f v)` — post-validators run in declared order, each on the previous
result.  (The pipeline itself is modelled from the spec, §4.4, since the
`apigateway.core.validation` module is not among the provided sources.) -/
theorem post_validators_compose (f g : V → V) (handler : V → R)
    (extracted : Except GatewayValidationError JObj)
    (pre_validators : List (JObj → Except GatewayValidationError JObj))
    (schema_validate : JObj → Except GatewayValidationError V)
    (d d2 : JObj) (v : V)
    (hx : extracted = Except.ok d)
    (hpre : run_validators pre_validators d = Except.ok d2)
    (hschema : schema_validate d2 = Except.ok v) :
    validate_pipeline extracted pre_validators schema_validate
      [fun x => Except.ok (f x), fun x => Except.ok (g x)] handler
      = Except.ok (handler (g (f v))) := by
  simp [validate_pipeline, hx, hpre, hschema, run_validators]

/-- C8, witness: post-validators `[+1, *2]` on the validated object `5`
deliver `12` to the handler. -/
theorem post_validators_compose_witness :
    validate_pipeline (Except.ok ([] : JObj)) []
      (fun _ => Except.ok (5 : Int))
      [fun x => Except.ok (x + 1), fun x => Except.ok (x * 2)]
      (fun x => x)
      = Except.ok 12 :=
  post_validators_compose (fun x => x + 1) (fun x => x * 2) (fun x => x)
    (Except.ok []) [] (fun _ => Except.ok 5) [] [] 5 rfl rfl rfl
